import Mathlib

/-!
Verification of the pitch-data filtering and aggregation core of the
baseball-visualisation scripts.  The shallow embedding below models the
pandas event table as a list of rows together with a column-name list,
the two static category tables (`pitch_type_groups`, `descriptions`),
the filter `player_data_filtered`, and the two aggregation operations
(column mean and whiff-rate ratio percentage).
-/

/-- One per-pitch event record.  Only the fields that the verified
filtering/aggregation logic actually reads are carried as typed fields;
numeric columns that may be missing (pandas `NaN`) are `Option ℚ`. -/
structure Row where
  pitch_type : String
  description : String
  p_throws : String
  estimated_woba_using_speedangle : Option ℚ
deriving DecidableEq, Repr

/-- A pandas data frame: a column-name list (the schema) plus rows. -/
structure DataFrame where
  cols : List String
  rows : List Row
deriving DecidableEq, Repr

/-- The fixed 22-column projection applied by `player_data_filtered`. -/
def columns : List String :=
  ["game_date", "pitch_type", "description", "events", "release_speed", "p_throws",
   "batter", "pitcher", "home_team", "away_team", "balls", "strikes", "bb_type",
   "plate_x", "plate_z", "sz_top", "sz_bot", "hit_distance_sc", "launch_speed",
   "launch_angle", "estimated_woba_using_speedangle", "woba_value"]

/-- The static pitch-type category table: group name to raw pitch-type codes. -/
def pitch_type_groups : List (String × List String) :=
  [("fastball", ["FF", "SI", "FC"]),
   ("breaking", ["SL", "CU", "ST", "SV", "KC"]),
   ("offspeed", ["FS", "CH"])]

/-- The static outcome-description category table: group name to raw outcome codes. -/
def descriptions : List (String × List String) :=
  [("in play", ["hit_into_play"]),
   ("swinging strike", ["swinging_strike", "swinging_strike_blocked", "foul_tip"]),
   ("called strike", ["called_strike"]),
   ("foul", ["foul"]),
   ("ball", ["ball", "blocked_ball"]),
   ("hit by pitch", ["hit_by_pitch"]),
   ("swing", ["hit_into_play", "swinging_strike", "swinging_strike_blocked", "foul_tip", "foul"])]

/-- Dictionary lookup: `key in table` together with `table[key]`. -/
def lookupGroup : List (String × List String) → String → Option (List String)
  | [], _ => none
  | (k, v) :: rest, s => if s = k then some v else lookupGroup rest s

/-- The row-filtering step of `player_data_filtered` (source lines 190-199):
each of the three selectors restricts the rows only when it is a key of its
category table (respectively the literal `L`/`R`), in this order. -/
def filterRows (pitch_type pitch_description pitcher_handedness : String)
    (data : List Row) : List Row :=
  let d1 := match lookupGroup pitch_type_groups pitch_type with
    | some codes => data.filter (fun r => codes.contains r.pitch_type)
    | none => data
  let d2 := match lookupGroup descriptions pitch_description with
    | some codes => d1.filter (fun r => codes.contains r.description)
    | none => d1
  if ["L", "R"].contains pitcher_handedness then
    d2.filter (fun r => r.p_throws == pitcher_handedness)
  else d2

/-- The filter engine `player_data_filtered`: the fetched raw table is
projected to the fixed 22 `columns` and then row-filtered by the three
selectors.  The network fetch is external; the raw table is a parameter. -/
def player_data_filtered (raw : DataFrame)
    (pitch_type pitch_description pitcher_handedness : String) : DataFrame :=
  ⟨columns, filterRows pitch_type pitch_description pitcher_handedness raw.rows⟩

/-- A Python float as the aggregation code observes it: either an ordinary
number (modelled exactly as a rational) or the `NaN` sentinel. -/
inductive PyFloat where
  | nan : PyFloat
  | val : ℚ → PyFloat
deriving DecidableEq, Repr

/-- Banker's rounding (round half to even), the semantics of Python `round`. -/
def roundHalfEven (q : ℚ) : ℤ :=
  if q - ⌊q⌋ < 1/2 then ⌊q⌋
  else if 1/2 < q - ⌊q⌋ then ⌊q⌋ + 1
  else if ⌊q⌋ % 2 = 0 then ⌊q⌋ else ⌊q⌋ + 1

/-- Python `round(q, 2)`: round to two decimal places. -/
def round2 (q : ℚ) : ℚ := (roundHalfEven (q * 100) : ℚ) / 100

/-- The ratio-percentage aggregation `round((len(num) / len(denom)) * 100, 2)`;
Python raises `ZeroDivisionError` when the denominator table is empty, which
the embedding renders as `none`. -/
def ratio_percentage (num denom : DataFrame) : Option ℚ :=
  if denom.rows.length = 0 then none
  else some (round2 (((num.rows.length : ℚ) / (denom.rows.length : ℚ)) * 100))

/-- The overall whiff-rate computation of the scripts: the ratio percentage of
the `swinging strike`-filtered table over the `swing`-filtered table, both
derived from the same source table with the other selectors left at `all`. -/
def overall_whiff_rate (data : DataFrame) : Option ℚ :=
  ratio_percentage (player_data_filtered data "all" "swinging strike" "all")
    (player_data_filtered data "all" "swing" "all")

/-- Pandas `Series.mean()`: missing values are skipped; when no non-missing
value remains (in particular on an empty table) the result is the float `NaN`,
returned as an ordinary value rather than raised as an error. -/
def seriesMean (xs : List (Option ℚ)) : PyFloat :=
  if (xs.filterMap id).length = 0 then PyFloat.nan
  else PyFloat.val ((xs.filterMap id).sum / ((xs.filterMap id).length : ℚ))

/-- The mean-of-column aggregation of the scripts, e.g.
`first_stint_data['estimated_woba_using_speedangle'].mean()`. -/
def first_stint_xwoba (data : DataFrame) : PyFloat :=
  seriesMean (data.rows.map (fun r => r.estimated_woba_using_speedangle))

/-- Pairwise disjointness of the code sets of a category table's groups. -/
def groupsPairwiseDisjoint (t : List (String × List String)) : Prop :=
  t.Pairwise (fun a b => ∀ c, c ∈ a.2 → c ∉ b.2)

/-- A sample event row (fields: pitch type, outcome, handedness, xwOBA). -/
def sampleRow : Row := ⟨"FF", "foul", "L", none⟩

/-- A second sample row, not matching the fastball group. -/
def sampleRow2 : Row := ⟨"SL", "ball", "R", none⟩

/-- A small sample table over the fixed 22-column schema. -/
def sampleT : DataFrame := ⟨columns, [sampleRow, sampleRow2]⟩

/-- An empty event table over the fixed 22-column schema. -/
def emptyT : DataFrame := ⟨columns, []⟩

/-- The synthetic 10-row table of the concrete whiff-rate scenario: three rows
with outcome code `swinging_strike`, six rows in total whose code lies in the
`swing` group, four rows outside it. -/
def tenRows : List Row :=
  [⟨"FF", "swinging_strike", "R", none⟩,
   ⟨"SL", "swinging_strike", "L", none⟩,
   ⟨"CH", "swinging_strike", "R", none⟩,
   ⟨"FF", "hit_into_play", "R", none⟩,
   ⟨"CU", "hit_into_play", "L", none⟩,
   ⟨"FF", "foul", "R", none⟩,
   ⟨"SI", "ball", "R", none⟩,
   ⟨"FC", "called_strike", "L", none⟩,
   ⟨"ST", "blocked_ball", "R", none⟩,
   ⟨"FS", "ball", "L", none⟩]

/-- The synthetic 10-row table as an event table. -/
def tenT : DataFrame := ⟨columns, tenRows⟩

/-- A three-row table whose xwOBA column holds two numbers and one missing
value, for exercising the column mean. -/
def meanSampleT : DataFrame :=
  ⟨columns,
   [⟨"FF", "hit_into_play", "R", some (3 / 10)⟩,
    ⟨"SL", "foul", "L", none⟩,
    ⟨"CH", "hit_into_play", "R", some (2 / 10)⟩]⟩

section Helpers

set_option maxRecDepth 4096 in
/-- Membership characterisation of the filtering step: a row survives exactly
when it was present and matches every recognised selector. -/
theorem mem_filterRows {p d h : String} {l : List Row} {r : Row} :
    r ∈ filterRows p d h l ↔ r ∈ l ∧
      (∀ codes, lookupGroup pitch_type_groups p = some codes → r.pitch_type ∈ codes) ∧
      (∀ codes, lookupGroup descriptions d = some codes → r.description ∈ codes) ∧
      ((h = "L" ∨ h = "R") → r.p_throws = h) := by
  unfold filterRows
  have hLR : (["L", "R"].contains h = true) ↔ (h = "L" ∨ h = "R") := by
    simp [List.contains]
  rcases hp : lookupGroup pitch_type_groups p with _ | pcodes <;>
    rcases hd : lookupGroup descriptions d with _ | dcodes <;>
    by_cases hh : h = "L" ∨ h = "R" <;>
    simp [hp, hd, hLR, hh, List.mem_filter] <;>
    tauto

/-- The filtering step only discards rows. -/
theorem filterRows_sublist (p d h : String) (l : List Row) :
    (filterRows p d h l).Sublist l := by
  unfold filterRows
  rcases lookupGroup pitch_type_groups p with _ | pcodes <;>
    rcases lookupGroup descriptions d with _ | dcodes <;>
    by_cases hh : ["L", "R"].contains h <;>
    simp only [hh, if_true, if_false, Bool.false_eq_true] <;>
    solve_by_elim [List.filter_sublist, List.Sublist.trans, List.Sublist.refl]

/-- Banker's rounding never goes below the floor of its argument. -/
theorem roundHalfEven_nonneg {q : ℚ} (h : 0 ≤ q) : 0 ≤ roundHalfEven q := by
  have hn : 0 ≤ ⌊q⌋ := Int.le_floor.mpr (by exact_mod_cast h)
  unfold roundHalfEven
  split_ifs <;> omega

/-- Banker's rounding never exceeds an integer bound of its argument. -/
theorem roundHalfEven_le {q : ℚ} {m : ℤ} (h : q ≤ (m : ℚ)) : roundHalfEven q ≤ m := by
  have hfl : ⌊q⌋ ≤ m := by
    have := Int.floor_le_floor h
    simpa using this
  have hlow : (⌊q⌋ : ℚ) ≤ q := Int.floor_le q
  unfold roundHalfEven
  split_ifs with h1 h2 h3
  · exact hfl
  · have hq : (⌊q⌋ : ℚ) < q := by linarith
    have : (⌊q⌋ : ℚ) < (m : ℚ) := lt_of_lt_of_le hq h
    have hm : ⌊q⌋ < m := by exact_mod_cast this
    omega
  · exact hfl
  · have hq : (⌊q⌋ : ℚ) < q := by
      by_contra hcon
      push_neg at hcon
      have : q = (⌊q⌋ : ℚ) := le_antisymm hcon hlow
      rw [this] at h1
      simp at h1
    have : (⌊q⌋ : ℚ) < (m : ℚ) := lt_of_lt_of_le hq h
    have hm : ⌊q⌋ < m := by exact_mod_cast this
    omega

/-- Rounding to two decimals preserves nonnegativity. -/
theorem round2_nonneg {q : ℚ} (h : 0 ≤ q) : 0 ≤ round2 q := by
  have h1 : (0 : ℤ) ≤ roundHalfEven (q * 100) :=
    roundHalfEven_nonneg (by nlinarith)
  have h2 : (0 : ℚ) ≤ (roundHalfEven (q * 100) : ℚ) := by exact_mod_cast h1
  unfold round2
  linarith

/-- Rounding to two decimals preserves the upper bound 100. -/
theorem round2_le_100 {q : ℚ} (h : q ≤ 100) : round2 q ≤ 100 := by
  have h1 : roundHalfEven (q * 100) ≤ (10000 : ℤ) :=
    roundHalfEven_le (by push_cast; nlinarith)
  have h2 : (roundHalfEven (q * 100) : ℚ) ≤ 10000 := by exact_mod_cast h1
  unfold round2
  linarith

/-- Rounding zero to two decimals gives zero. -/
theorem round2_zero : round2 0 = 0 := by
  norm_num [round2, roundHalfEven]

/-- When the numerator table has at most as many rows as the non-empty
denominator table, the ratio percentage is a value in [0, 100]. -/
theorem ratio_percentage_mem_bounds {num denom : DataFrame}
    (hle : num.rows.length ≤ denom.rows.length) (hne : denom.rows.length ≠ 0) :
    ∃ q, ratio_percentage num denom = some q ∧ 0 ≤ q ∧ q ≤ 100 := by
  have hbpos : (0 : ℚ) < (denom.rows.length : ℚ) := by
    exact_mod_cast Nat.pos_of_ne_zero hne
  have hx0 : (0 : ℚ) ≤ ((num.rows.length : ℚ) / (denom.rows.length : ℚ)) * 100 := by
    have := div_nonneg (show (0:ℚ) ≤ (num.rows.length : ℚ) by positivity) hbpos.le
    linarith
  have hx1 : ((num.rows.length : ℚ) / (denom.rows.length : ℚ)) * 100 ≤ 100 := by
    have hd1 : (num.rows.length : ℚ) / (denom.rows.length : ℚ) ≤ 1 := by
      rw [div_le_one hbpos]
      exact_mod_cast hle
    linarith
  refine ⟨round2 (((num.rows.length : ℚ) / (denom.rows.length : ℚ)) * 100), ?_,
    round2_nonneg hx0, round2_le_100 hx1⟩
  simp [ratio_percentage, hne]

/-- Filtering by the `swinging strike` outcome group retains a sub-sequence of
what filtering by the `swing` outcome group retains, for any pitch-type and
handedness selectors. -/
theorem filterRows_ss_sublist_swing (p h : String) (l : List Row) :
    (filterRows p "swinging strike" h l).Sublist (filterRows p "swing" h l) := by
  unfold filterRows
  rw [show lookupGroup descriptions "swinging strike" =
    some ["swinging_strike", "swinging_strike_blocked", "foul_tip"] from rfl,
    show lookupGroup descriptions "swing" =
    some ["hit_into_play", "swinging_strike", "swinging_strike_blocked", "foul_tip",
      "foul"] from rfl]
  have hmono : ∀ l1 : List Row,
      (l1.filter (fun r =>
        (["swinging_strike", "swinging_strike_blocked", "foul_tip"] : List String).contains
          r.description)).Sublist
      (l1.filter (fun r =>
        (["hit_into_play", "swinging_strike", "swinging_strike_blocked", "foul_tip",
          "foul"] : List String).contains r.description)) := by
    intro l1
    apply List.monotone_filter_right
    intro r hr
    simp [List.contains] at hr ⊢
    tauto
  by_cases hh : ["L", "R"].contains h <;> simp only [hh, if_true, Bool.false_eq_true,
    if_false]
  · exact (hmono _).filter _
  · exact hmono _

end Helpers

/-- Claim C1: the filtered table's rows are a subset of the source table's rows, and
a row is retained exactly when its raw code in each dimension belongs to the
selected group's code set whenever that selector is recognised; the three
restrictions compose by logical AND. -/
theorem filter_membership_characterization (T : DataFrame) (p d h : String) :
    (player_data_filtered T p d h).rows.Sublist T.rows ∧
    ∀ r : Row, r ∈ (player_data_filtered T p d h).rows ↔ r ∈ T.rows ∧
      (∀ codes, lookupGroup pitch_type_groups p = some codes → r.pitch_type ∈ codes) ∧
      (∀ codes, lookupGroup descriptions d = some codes → r.description ∈ codes) ∧
      ((h = "L" ∨ h = "R") → r.p_throws = h) :=
  ⟨filterRows_sublist p d h T.rows, fun _ => mem_filterRows⟩

/-- Witness for C1 at a concrete table and selectors. -/
theorem filter_membership_characterization_witness :
    (player_data_filtered sampleT "fastball" "foul" "L").rows.Sublist sampleT.rows :=
  (filter_membership_characterization sampleT "fastball" "foul" "L").1

/-- Claim C2: filtering with the sentinel selector `all` in all three dimensions
returns the event table unchanged (identity law), for any table carrying the
fixed 22-column schema. -/
theorem filter_all_is_identity (T : DataFrame) (hc : T.cols = columns) :
    player_data_filtered T "all" "all" "all" = T := by
  have h1 : lookupGroup pitch_type_groups "all" = none := rfl
  have h2 : lookupGroup descriptions "all" = none := rfl
  have h3 : (["L", "R"].contains "all") = false := rfl
  cases T
  simp_all [player_data_filtered, filterRows]

/-- Witness for C2 at a concrete table. -/
theorem filter_all_is_identity_witness :
    player_data_filtered sampleT "all" "all" "all" = sampleT :=
  filter_all_is_identity sampleT rfl

/-- Claim C5: a selector string that is not a recognised group name (in particular
one that is not `all` either, such as `curveball`) is silently ignored: the
result is exactly the one obtained by passing `all` in that dimension, and no
error is raised. -/
theorem unknown_selector_silently_ignored (T : DataFrame) :
    (∀ p d h, lookupGroup pitch_type_groups p = none →
      player_data_filtered T p d h = player_data_filtered T "all" d h) ∧
    (∀ p d h, lookupGroup descriptions d = none →
      player_data_filtered T p d h = player_data_filtered T p "all" h) ∧
    (∀ p d h, ¬(h = "L" ∨ h = "R") →
      player_data_filtered T p d h = player_data_filtered T p d "all") := by
  refine ⟨?_, ?_, ?_⟩ <;> intro p d h hx <;>
    unfold player_data_filtered filterRows <;>
    simp [hx, show lookupGroup pitch_type_groups "all" = none from rfl,
      show lookupGroup descriptions "all" = none from rfl,
      show (["L", "R"].contains "all") = false from rfl]

/-- Witness for C5: the unrecognised pitch-type selector `curveball` behaves
exactly like `all`. -/
theorem unknown_selector_silently_ignored_witness :
    player_data_filtered sampleT "curveball" "all" "all" =
      player_data_filtered sampleT "all" "all" "all" :=
  (unknown_selector_silently_ignored sampleT).1 "curveball" "all" "all" rfl

/-- Claim C6: the handedness selector filters (by equality on the pitcher-handedness
field) exactly when it is the literal `L` or `R`; every other value, including
`all`, leaves that dimension unfiltered. -/
theorem handedness_filters_only_L_R (T : DataFrame) (p d h : String) :
    ((h = "L" ∨ h = "R") →
      (player_data_filtered T p d h).rows =
        ((player_data_filtered T p d "all").rows).filter (fun r => r.p_throws == h)) ∧
    (¬(h = "L" ∨ h = "R") →
      player_data_filtered T p d h = player_data_filtered T p d "all") := by
  constructor
  · intro hh
    rcases hh with rfl | rfl <;>
      · unfold player_data_filtered filterRows
        simp [show (["L", "R"].contains "all") = false from rfl]
  · intro hh
    unfold player_data_filtered filterRows
    simp [hh, show (["L", "R"].contains "all") = false from rfl]

/-- Witness for C6 at the concrete handedness `L`. -/
theorem handedness_filters_only_L_R_witness :
    (player_data_filtered sampleT "all" "all" "L").rows =
      ((player_data_filtered sampleT "all" "all" "all").rows).filter
        (fun r => r.p_throws == "L") :=
  (handedness_filters_only_L_R sampleT "all" "all" "L").1 (Or.inl rfl)

/-- Claim C9: whatever the selectors, the filtered table's schema is exactly the
fixed 22-column projection, in order; filtering changes rows, never columns. -/
theorem filtered_table_columns_fixed (T : DataFrame) (p d h : String) :
    (player_data_filtered T p d h).cols =
      ["game_date", "pitch_type", "description", "events", "release_speed", "p_throws",
       "batter", "pitcher", "home_team", "away_team", "balls", "strikes", "bb_type",
       "plate_x", "plate_z", "sz_top", "sz_bot", "hit_distance_sc", "launch_speed",
       "launch_angle", "estimated_woba_using_speedangle", "woba_value"] ∧
    (player_data_filtered T p d h).cols.length = 22 :=
  ⟨rfl, rfl⟩

/-- Witness for C9 at concrete selectors. -/
theorem filtered_table_columns_fixed_witness :
    (player_data_filtered sampleT "fastball" "swing" "L").cols.length = 22 :=
  (filtered_table_columns_fixed sampleT "fastball" "swing" "L").2

/-- Claim C3: when the numerator's rows form a sub-sequence of the denominator's
rows, the ratio percentage is a value in [0, 100]; it is exactly 0 for an
empty numerator and a non-empty denominator; and it fails (yields no number)
when the denominator is empty. -/
theorem ratio_percentage_bounds_spec (num denom : DataFrame)
    (hsub : num.rows.Sublist denom.rows) :
    (denom.rows ≠ [] → ∃ q, ratio_percentage num denom = some q ∧ 0 ≤ q ∧ q ≤ 100) ∧
    (num.rows = [] → denom.rows ≠ [] → ratio_percentage num denom = some 0) ∧
    (denom.rows = [] → ratio_percentage num denom = none) := by
  refine ⟨?_, ?_, ?_⟩
  · intro hne
    exact ratio_percentage_mem_bounds hsub.length_le
      (by simpa [List.length_eq_zero] using hne)
  · intro h0 hne
    have hlen : denom.rows.length ≠ 0 := by simpa [List.length_eq_zero] using hne
    simp [ratio_percentage, hlen, h0, round2_zero]
  · intro h0
    simp [ratio_percentage, h0]

/-- Witness for C3: empty numerator over the two-row sample table gives 0. -/
theorem ratio_percentage_bounds_spec_witness :
    ratio_percentage emptyT sampleT = some 0 :=
  (ratio_percentage_bounds_spec emptyT sampleT (List.nil_sublist _)).2.1 rfl
    (by simp [sampleT])

/-- Claim C4 counterexample: on the empty table the column mean does not fail and
does not yield an explicit error value; it silently returns the float `NaN`,
contrary to the claim. -/
theorem mean_of_empty_returns_nan : first_stint_xwoba emptyT = PyFloat.nan := rfl

/-- Claim C4 amended: the column mean silently returns the float `NaN` when no
non-missing value is present (in particular on an empty table); when at least
one non-missing value exists it returns the arithmetic mean of the non-missing
values, with missing values ignored in both numerator and denominator. -/
theorem mean_of_column_nan_spec (data : DataFrame) :
    ((data.rows.map (fun r => r.estimated_woba_using_speedangle)).filterMap id = [] →
      first_stint_xwoba data = PyFloat.nan) ∧
    (∀ vs, (data.rows.map (fun r => r.estimated_woba_using_speedangle)).filterMap id = vs →
      vs ≠ [] → first_stint_xwoba data = PyFloat.val (vs.sum / (vs.length : ℚ))) := by
  constructor
  · intro h0
    unfold first_stint_xwoba seriesMean
    simp [h0]
  · intro vs hvs hne
    unfold first_stint_xwoba seriesMean
    rw [hvs]
    simp [hne, List.length_eq_zero]

/-- Witness for C4 amended: a table with values 0.3, missing, 0.2 has mean
computed over the two non-missing values only. -/
theorem mean_of_column_nan_spec_witness :
    first_stint_xwoba meanSampleT =
      PyFloat.val (([(3 : ℚ) / 10, 2 / 10].sum) / (([(3 : ℚ) / 10, 2 / 10].length : ℚ))) :=
  (mean_of_column_nan_spec meanSampleT).2 [(3 : ℚ) / 10, 2 / 10] rfl (by simp)

/-- Claim C7: on the synthetic 10-row table with 3 `swinging_strike` rows and 6 rows
in the `swing` group, the whiff-rate ratio percentage is exactly 50.00. -/
theorem whiff_rate_concrete_fifty : overall_whiff_rate tenT = some 50 := by
  have h1 : (player_data_filtered tenT "all" "swinging strike" "all").rows.length = 3 := rfl
  have h2 : (player_data_filtered tenT "all" "swing" "all").rows.length = 6 := rfl
  unfold overall_whiff_rate ratio_percentage
  rw [h1, h2]
  norm_num [round2, roundHalfEven]

/-- Claim C8 counterexample: the outcome code `hit_into_play` belongs to the code
sets of two different groups of the outcome-description table (`in play` and
`swing`), so the groups of that table are not pairwise disjoint. -/
theorem description_groups_overlap :
    ("in play", ["hit_into_play"]) ∈ descriptions ∧
    ("swing", ["hit_into_play", "swinging_strike", "swinging_strike_blocked", "foul_tip",
      "foul"]) ∈ descriptions ∧
    ("in play" : String) ≠ "swing" ∧
    "hit_into_play" ∈ (["hit_into_play"] : List String) ∧
    "hit_into_play" ∈ ["hit_into_play", "swinging_strike", "swinging_strike_blocked",
      "foul_tip", "foul"] := by decide

/-- Claim C8 amended: the pitch-type groups are pairwise disjoint; the outcome
description groups other than `swing` are pairwise disjoint, while `swing` is
the composite union of the `in play`, `swinging strike` and `foul` groups; the
sentinel `all` is not a group name in either table. -/
theorem category_tables_disjointness_spec :
    groupsPairwiseDisjoint pitch_type_groups ∧
    groupsPairwiseDisjoint (descriptions.filter (fun g => g.1 != "swing")) ∧
    lookupGroup descriptions "swing" =
      some (["hit_into_play"] ++
        ["swinging_strike", "swinging_strike_blocked", "foul_tip"] ++ ["foul"]) ∧
    lookupGroup pitch_type_groups "all" = none ∧
    lookupGroup descriptions "all" = none := by
  unfold groupsPairwiseDisjoint
  decide

/-- Claim C10: the `swinging strike` code set is a strict subset of the `swing` code
set; consequently the `swinging strike`-filtered rows are always a
sub-sequence of the `swing`-filtered rows of the same table, and every defined
whiff-rate percentage is at most 100. -/
theorem swinging_strike_strictly_below_swing :
    lookupGroup descriptions "swinging strike" =
      some ["swinging_strike", "swinging_strike_blocked", "foul_tip"] ∧
    lookupGroup descriptions "swing" =
      some ["hit_into_play", "swinging_strike", "swinging_strike_blocked", "foul_tip",
        "foul"] ∧
    (∀ c ∈ ["swinging_strike", "swinging_strike_blocked", "foul_tip"],
      c ∈ ["hit_into_play", "swinging_strike", "swinging_strike_blocked", "foul_tip",
        "foul"]) ∧
    ¬(∀ c ∈ ["hit_into_play", "swinging_strike", "swinging_strike_blocked", "foul_tip",
        "foul"],
      c ∈ ["swinging_strike", "swinging_strike_blocked", "foul_tip"]) ∧
    (∀ T p h, (player_data_filtered T p "swinging strike" h).rows.Sublist
      (player_data_filtered T p "swing" h).rows) ∧
    (∀ T p h q, ratio_percentage (player_data_filtered T p "swinging strike" h)
      (player_data_filtered T p "swing" h) = some q → q ≤ 100) := by
  refine ⟨rfl, rfl, by decide, by decide, ?_, ?_⟩
  · intro T p h
    exact filterRows_ss_sublist_swing p h T.rows
  · intro T p h q hq
    by_cases h0 : (player_data_filtered T p "swing" h).rows.length = 0
    · simp [ratio_percentage, h0] at hq
    · obtain ⟨q2, hq2, _, hle⟩ :=
        @ratio_percentage_mem_bounds (player_data_filtered T p "swinging strike" h)
          (player_data_filtered T p "swing" h)
          ((filterRows_ss_sublist_swing p h T.rows).length_le) h0
      have : some q = some q2 := hq.symm.trans hq2
      simp only [Option.some.injEq] at this
      rw [this]
      exact hle

/-- Witness for C10: on the sample table the whiff-rate percentage is defined
and at most 100. -/
theorem swinging_strike_strictly_below_swing_witness :
    ratio_percentage (player_data_filtered sampleT "all" "swinging strike" "all")
      (player_data_filtered sampleT "all" "swing" "all") = some 0 ∧ (0 : ℚ) ≤ 100 := by
  have h1 : (player_data_filtered sampleT "all" "swinging strike" "all").rows.length = 0 :=
    rfl
  have h2 : (player_data_filtered sampleT "all" "swing" "all").rows.length = 1 := rfl
  have hr : ratio_percentage (player_data_filtered sampleT "all" "swinging strike" "all")
      (player_data_filtered sampleT "all" "swing" "all") = some 0 := by
    unfold ratio_percentage
    rw [h1, h2]
    norm_num [round2, roundHalfEven]
  exact ⟨hr, swinging_strike_strictly_below_swing.2.2.2.2.2 sampleT "all" "all" 0 hr⟩
